import Mathlib

/-!
Verification of the PyIRIDocker command-line scripts.

This file gives a shallow embedding of the three scripts
(`pyiri_runner.py`, `pyiri_year_daily.py`, `pyiri_year_plot.py`) and
proves properties about the embedded definitions.

Conventions of the embedding:
* numpy arrays are modelled by `NDArray`: an explicit shape (a list of
  axis sizes) together with a total valuation of multi-indices; Python
  float values are idealised as rationals (for the synthetic F10.7
  series, which uses `sin`/`exp`, as reals).
* the external PyIRI calls are oracles: functions producing either an
  `Except.error` (the library raised) or an `Except.ok` payload; a
  Python `try`/`except` block becomes a `match` on such a value.
* a loop that appends one element per iteration becomes `List.map` /
  an explicit recursion over the iteration space.
-/

/-- Rational model of a numpy float array: an explicit shape together
with a total valuation of multi-indices (out-of-range indices are
given harmless values; the scripts only read in-range cells). -/
structure NDArray where
  shape : List Nat
  d : List Nat → ℚ

/-- `len(a.shape)` — the number of axes. -/
def NDArray.ndim (a : NDArray) : Nat := a.shape.length

/-- A one-dimensional float array of length `n`. -/
structure Arr1 where
  n : Nat
  d : Nat → ℚ

/-- `np.clip(x, lo, hi)` on rationals. -/
def np_clip (x lo hi : ℚ) : ℚ := max lo (min hi x)

/-- `Except.isOk` spelled out, for concrete evaluations. -/
def exceptOk {α : Type} : Except String α → Bool
  | .ok _ => true
  | .error _ => false

/-- Trapezoidal rule with uniform spacing `dx` over the `n` samples
`g 0, …, g (n-1)`: `dx * Σ (g i + g (i+1)) / 2`.  This is the meaning
of `np.trapezoid(_, dx := dx)` along one line of an array. -/
def trapzLine (dx : ℚ) (n : Nat) (g : Nat → ℚ) : ℚ :=
  (((List.range (n - 1)).map (fun i => (g i + g (i + 1)) / 2)).sum) * dx

/-- `np.trapezoid(a, axis := axis, dx := dx)`: integrate out one axis of
a multi-dimensional array with the trapezoidal rule. -/
def np_trapezoid (a : NDArray) (axis : Nat) (dx : ℚ) : NDArray :=
  { shape := a.shape.take axis ++ a.shape.drop (axis + 1)
    d := fun idx =>
      trapzLine dx (a.shape.getD axis 0)
        (fun k => a.d (idx.take axis ++ k :: idx.drop axis)) }

/-! ## Single/Global Runner (`pyiri_runner.py`) -/

/-- `f2[...][args.hour, :]` — the row of a `[time, location]` array at
a given hour (`pyiri_runner.py` lines 111-113). -/
def rowAtHour (hour : Nat) (a : NDArray) : Nat → ℚ := fun j => a.d [hour, j]

/-- `f2[...][args.hour, :, -1]` — hour `args.hour` on axis 0 and the
last index on axis 2 of a `[time, location, solar]` array
(`pyiri_runner.py` lines 116-118). -/
def rowAtHourLastSolar (hour : Nat) (a : NDArray) : Nat → ℚ :=
  fun j => a.d [hour, j, a.shape.getD 2 0 - 1]

/-- Shape normalisation of the global-plot stage
(`pyiri_runner.py` lines 109-121): branch on `len(f2['fo'].shape)`;
two axes select the hour row, three axes additionally fix the last
solar index, anything else aborts (`return`), modelled as `none`. -/
def extractGlobalData (hour : Nat) (fo hm nm : NDArray) :
    Option ((Nat → ℚ) × (Nat → ℚ) × (Nat → ℚ)) :=
  if fo.ndim = 2 then
    some (rowAtHour hour fo, rowAtHour hour hm, rowAtHour hour nm)
  else if fo.ndim = 3 then
    some (rowAtHourLastSolar hour fo, rowAtHourLastSolar hour hm,
      rowAtHourLastSolar hour nm)
  else
    none

/-- The vTEC computation of `pyiri_runner.py` lines 197-242: pick the
altitude axis by comparing axis sizes with `len(aalt)`, integrate it
out with `np.trapezoid` (`dx = alt_step * 1000`), for three-axis input
extract the hour row, and scale by `1e-16` (TECU conversion).  The
`error` results are the `ValueError`s raised on undecidable input. -/
def vtecCore (hour naalt : Nat) (altStep : ℚ) (edp : NDArray) :
    Except String Arr1 :=
  if edp.ndim = 3 then
    if edp.shape.getD 1 0 = naalt then
      let t := np_trapezoid edp 1 (altStep * 1000)
      .ok ⟨edp.shape.getD 2 0, fun j => t.d [hour, j] * (1 / 10 ^ 16)⟩
    else if edp.shape.getD 2 0 = naalt then
      let t := np_trapezoid edp 2 (altStep * 1000)
      .ok ⟨edp.shape.getD 1 0, fun j => t.d [hour, j] * (1 / 10 ^ 16)⟩
    else
      .error "Cannot determine altitude axis"
  else if edp.ndim = 2 then
    if edp.shape.getD 1 0 = naalt then
      let t := np_trapezoid edp 1 (altStep * 1000)
      .ok ⟨edp.shape.getD 0 0, fun i => t.d [i] * (1 / 10 ^ 16)⟩
    else
      let t := np_trapezoid edp 0 (altStep * 1000)
      .ok ⟨edp.shape.getD 1 0, fun j => t.d [j] * (1 / 10 ^ 16)⟩
  else
    .error "Cannot process EDP data"

/-- Size fix-up of `pyiri_runner.py` lines 248-254: a TEC vector larger
than the grid is truncated to the first `grid` elements, a smaller one
raises `ValueError`. -/
def fixSize (grid : Nat) (t : Arr1) : Except String Arr1 :=
  if t.n = grid then .ok t
  else if t.n > grid then .ok ⟨grid, t.d⟩
  else .error ("TEC data too small: " ++ toString t.n ++ " < " ++ toString grid)

/-- Outcome of the vTEC stage: either a plot of the final TEC vector is
written, or the exception text is logged (lines 276-277). -/
inductive VtecOutcome
  | plotted (tec : Arr1)
  | logged (msg : String)

/-- The whole vTEC stage (`pyiri_runner.py` lines 194-277): the
computation and size fix-up run under `try`, any raised error is caught
and printed. -/
def vtecPipeline (hour naalt : Nat) (altStep : ℚ) (edp : NDArray)
    (grid : Nat) : VtecOutcome :=
  match (vtecCore hour naalt altStep edp).bind (fixSize grid) with
  | .ok t => .plotted t
  | .error e => .logged ("vTEC calculation failed: " ++ e)

/-- The command-line switches of `pyiri_runner.py` that steer control
flow, plus the flattened grid size `alon_2d.size`. -/
structure RunnerArgs where
  globalMap : Bool
  hour : Nat
  vtec : Bool
  profiles : Bool
  params : List String
  gridSize : Nat

/-- What one PyIRI call returns to the runner: the `f2` dictionary
fields used (`fo`, `hm`, `Nm`), the E-peak `Nm`, and (on the daily
path) the electron-density profile. -/
structure ModelOut where
  fo : NDArray
  hm : NDArray
  nm : NDArray
  enm : NDArray
  edp : Option NDArray

/-- Observable result of one run of `pyiri_runner.py`: how many PyIRI
calls were made, which plots were written, which error messages were
printed. -/
structure RunnerReport where
  calls : Nat
  plots : List String
  msgs : List String

/-- The per-parameter plots written by the global branch
(lines 134-191): one plot per requested parameter. -/
def paramPlots (params : List String) : List String :=
  (if "foF2" ∈ params ∨ "all" ∈ params then ["foF2"] else []) ++
  (if "hmF2" ∈ params ∨ "all" ∈ params then ["hmF2"] else []) ++
  (if "NmF2" ∈ params ∨ "all" ∈ params then ["NmF2"] else [])

/-- Whether the three reshapes of lines 124-126 succeed: each extracted
row (axis-1 size of its array) must have exactly the grid's size. -/
def reshapeOk (m : ModelOut) (grid : Nat) : Bool :=
  (m.fo.shape.getD 1 0 = grid : Bool) && (m.hm.shape.getD 1 0 = grid : Bool)
    && (m.nm.shape.getD 1 0 = grid : Bool)

/-- `aalt = np.arange(60, 1000 + 10, 10)` has 95 samples (line 71). -/
def runnerNaalt : Nat := 95

/-- `ahr = np.arange(0, 24, 1)` has 24 samples (line 64). -/
def runnerAhrLen : Nat := 24

/-- Dimension check of the four `ax.plot(ahr, series)` calls of the
single-location stage (`pyiri_runner.py` lines 305-324): the plotting
package raises `ValueError` unless each extracted time series has the
same first dimension as `ahr`, i.e. its array's axis 0 has 24
entries.  These calls run OUTSIDE any `try`. -/
def tsLengthsOk (m : ModelOut) : Bool :=
  (m.fo.shape.getD 0 0 = runnerAhrLen : Bool)
    && (m.hm.shape.getD 0 0 = runnerAhrLen : Bool)
    && (m.nm.shape.getD 0 0 = runnerAhrLen : Bool)
    && (m.enm.shape.getD 0 0 = runnerAhrLen : Bool)

/-- Control flow of `main` in `pyiri_runner.py`, with the single PyIRI
call supplied as an oracle.  The raise sites of the global branch (the
PyIRI call, the global extraction/reshape, the vTEC stage, the profile
stage) sit inside `try` blocks; the single-location branch
(lines 283-342) runs outside any `try`, so the dimension mismatch its
`ax.plot(ahr, series)` calls can raise (modelled by `tsLengthsOk`)
propagates out of `main` as `.error`. -/
def runnerMain (a : RunnerArgs) (mcall : Except String ModelOut) :
    Except String RunnerReport :=
  match mcall with
  | .error e => .ok ⟨1, [], ["PyIRI calculation failed: " ++ e]⟩
  | .ok m =>
    let profPlot : List String :=
      if a.profiles && m.edp.isSome then ["profiles"] else []
    if a.globalMap then
      match extractGlobalData a.hour m.fo m.hm m.nm with
      | none => .ok ⟨1, [], ["Unexpected shape"]⟩
      | some _ =>
        if reshapeOk m a.gridSize then
          let vtecPlot : List String :=
            match a.vtec, m.edp with
            | true, some edp =>
              match vtecPipeline a.hour runnerNaalt 10 edp a.gridSize with
              | .plotted _ => ["vTEC"]
              | .logged _ => []
            | _, _ => []
          .ok ⟨1, paramPlots a.params ++ vtecPlot ++ profPlot, []⟩
        else
          .ok ⟨1, [], ["Error extracting data"]⟩
    else
      if tsLengthsOk m then .ok ⟨1, "timeseries" :: profPlot, []⟩
      else .error "x and y must have same first dimension"

/-! ## Calendar (Python `datetime`, proleptic Gregorian) -/

/-- Gregorian leap-year rule, as implemented by Python's `datetime`. -/
def isLeap (year : Nat) : Bool :=
  (year % 4 = 0 && year % 100 ≠ 0) || year % 400 = 0

/-- `(datetime(y, 12, 31) - datetime(y, 1, 1)).days + 1`. -/
def daysInYear (year : Nat) : Nat := if isLeap year then 366 else 365

/-- `(next_month_start - datetime(y, m, 1)).days` — the day count of
month `m` (1-based) of `year`. -/
def daysInMonth (year m : Nat) : Nat :=
  if m = 2 then (if isLeap year then 29 else 28)
  else if m = 4 ∨ m = 6 ∨ m = 9 ∨ m = 11 then 30 else 31

/-- Zero-based ordinal (offset from January 1st) of the first day of
month `m` of `year`. -/
def monthStart (year m : Nat) : Nat :=
  (((List.range (m - 1)).map (fun k => daysInMonth year (k + 1))).sum)

/-- `os.path.join(a, b)` for the POSIX separator. -/
def os_path_join (a b : String) : String :=
  if b.data.head? = some '/' then b
  else if a = "" then b
  else if a.data.getLast? = some '/' then a ++ b
  else a ++ "/" ++ b

/-! ## Year Daily Generator (`pyiri_year_daily.py`) -/

/-- The flare component of `generate_f107_timeseries`
(`pyiri_year_daily.py` lines 45-54).  The random draws — flare start
day, duration (2-5 days) and amplitude (30-80) — are taken as input;
each flare adds `amplitude * exp(-i/2)` on day `fd + i` for
`i < duration`, provided `fd + i < days`. -/
noncomputable def flareComponent (days : Nat)
    (events : List (Nat × Nat × ℝ)) : Nat → ℝ :=
  fun t =>
    (events.map (fun e =>
      (((List.range e.2.1).map (fun i =>
        if e.1 + i = t ∧ e.1 + i < days then
          e.2.2 * Real.exp (-(i : ℝ) / 2)
        else 0)).sum))).sum

/-- `np.clip` on reals. -/
noncomputable def np_clipR (x lo hi : ℝ) : ℝ := max lo (min hi x)

/-- The daily F10.7 value before clipping
(`pyiri_year_daily.py` lines 36-60): constant base 110, annual
sinusoid of amplitude 20 and period 365.25 days, 27-day rotation
sinusoid of amplitude 15, the flare pulses, and `5 * randn` daily
noise (the normal draws `randn` are taken as input). -/
noncomputable def f107Raw (days : Nat) (events : List (Nat × Nat × ℝ))
    (randn : Nat → ℝ) (t : Nat) : ℝ :=
  110 + 20 * Real.sin (2 * Real.pi * (t : ℝ) / 365.25)
    + 15 * Real.sin (2 * Real.pi * (t : ℝ) / 27)
    + flareComponent days events t + 5 * randn t

/-- `generate_f107_timeseries(year)` (`pyiri_year_daily.py` lines
23-65): dates are the `days` consecutive offsets from January 1st, and
the F10.7 series is the clipped component sum, one value per date. -/
noncomputable def generate_f107_timeseries (year : Nat)
    (events : List (Nat × Nat × ℝ)) (randn : Nat → ℝ) :
    List Nat × List ℝ :=
  let days := daysInYear year
  (List.range days,
    (List.range days).map (fun t => np_clipR (f107Raw days events randn t) 70 250))

/-- NmF2 extraction of the daily-EDP path
(`pyiri_year_daily.py` lines 142-145). -/
def ydEdpExtract (nm : NDArray) : ℚ :=
  if 2 ≤ nm.ndim then nm.d [0, 0]
  else if nm.ndim = 1 then nm.d [0]
  else nm.d []

/-- NmF2/min/max extraction of the monthly-mean path
(`pyiri_year_daily.py` lines 157-169). -/
def ydExtract (nm : NDArray) : ℚ × ℚ × ℚ :=
  if nm.ndim = 3 then
    (nm.d [0, 0, 1], nm.d [0, 0, 0], nm.d [0, 0, nm.shape.getD 2 0 - 1])
  else if nm.ndim = 2 then
    (nm.d [0, 0], nm.d [0, 0] * (7 / 10), nm.d [0, 0] * (13 / 10))
  else
    let v := if nm.ndim = 1 then nm.d [0] else nm.d []
    (v, v * (7 / 10), v * (13 / 10))

/-- Daily scaling factor of the monthly-mean path
(`pyiri_year_daily.py` lines 174-175):
`(day_f107 - 70) / (avg_f107 - 70)` when the month average exceeds 70,
else `1.0`, then clipped to `[0.5, 2.0]`. -/
def dailyScale (dayF107 avgF107 : ℚ) : ℚ :=
  np_clip (if avgF107 > 70 then (dayF107 - 70) / (avgF107 - 70) else 1)
    (1 / 2) 2

/-- The NmF2 value stored for one day in the monthly-mean path
(line 177): the monthly value times the daily scaling factor. -/
def ydDailyValue (nmAvg dayF107 avgF107 : ℚ) : ℚ :=
  nmAvg * dailyScale dayF107 avgF107

/-- The per-day loop of the daily-EDP path (`pyiri_year_daily.py`
lines 132-149) under its `try`: call the model for each day in order,
appending the extracted NmF2; the first raising call aborts the loop.
Returns the values appended before the failure, whether a failure
occurred, and the list of days for which the model was invoked. -/
def ydEdpDays (oracle : Nat → Except String NDArray) :
    List Nat → List ℚ × Bool × List Nat
  | [] => ([], false, [])
  | d :: rest =>
    match oracle d with
    | .error _ => ([], true, [d])
    | .ok nm =>
      let r := ydEdpDays oracle rest
      (ydEdpExtract nm :: r.1, r.2.1, d :: r.2.2)

/-- Mutable state of `main` in `pyiri_year_daily.py`: the three
accumulated series (`None` models a NaN fill) and the trace of model
calls `(day-or-month, is_monthly_mean)`. -/
structure YDState where
  nmf2 : List (Option ℚ)
  nmin : List (Option ℚ)
  nmax : List (Option ℚ)
  calls : List (Nat × Bool)

/-- The `month_days` index list of `pyiri_year_daily.py` lines
112-117: the day ordinals of `month` within the year. -/
def ydMonthIdxs (year month : Nat) : List Nat :=
  (List.range (daysInMonth year month)).map (· + monthStart year month)

/-- One month of `main`'s loop in `pyiri_year_daily.py`
(lines 102-189).  `f` is the synthetic F10.7 series indexed by day
ordinal; `oracleM`/`oracleD` are the monthly/daily PyIRI calls.  The
`try` covers the whole month body; the `except` branch appends one NaN
per day of the month to each series. -/
def ydMonthStep (year : Nat) (useEdp : Bool) (f : Nat → ℚ)
    (oracleM : Nat → Except String NDArray)
    (oracleD : Nat → Except String NDArray)
    (st : YDState) (month : Nat) : YDState :=
  let dim := daysInMonth year month
  let idxs := ydMonthIdxs year month
  let f107s := idxs.map f
  let avg := f107s.sum / (dim : ℚ)
  if useEdp then
    let r := ydEdpDays oracleD idxs
    let vs := r.1
    if r.2.1 then
      { nmf2 := st.nmf2 ++ vs.map some ++ List.replicate dim none
        nmin := st.nmin ++ (vs.map (fun v => some (v * (8 / 10))))
            ++ List.replicate dim none
        nmax := st.nmax ++ (vs.map (fun v => some (v * (12 / 10))))
            ++ List.replicate dim none
        calls := st.calls ++ r.2.2.map (fun d => (d, false)) }
    else
      { nmf2 := st.nmf2 ++ vs.map some
        nmin := st.nmin ++ vs.map (fun v => some (v * (8 / 10)))
        nmax := st.nmax ++ vs.map (fun v => some (v * (12 / 10)))
        calls := st.calls ++ r.2.2.map (fun d => (d, false)) }
  else
    match oracleM month with
    | .error _ =>
      { nmf2 := st.nmf2 ++ List.replicate dim none
        nmin := st.nmin ++ List.replicate dim none
        nmax := st.nmax ++ List.replicate dim none
        calls := st.calls ++ [(month, true)] }
    | .ok nm =>
      let e := ydExtract nm
      { nmf2 := st.nmf2 ++ f107s.map (fun df => some (ydDailyValue e.1 df avg))
        nmin := st.nmin ++ f107s.map (fun _ => some e.2.1)
        nmax := st.nmax ++ f107s.map (fun _ => some e.2.2)
        calls := st.calls ++ [(month, true)] }

/-- The 12-month loop of `pyiri_year_daily.py` `main`. -/
def yearDailyRun (year : Nat) (useEdp : Bool) (f : Nat → ℚ)
    (oracleM oracleD : Nat → Except String NDArray) : YDState :=
  ((List.range 12).map (· + 1)).foldl
    (ydMonthStep year useEdp f oracleM oracleD) ⟨[], [], [], []⟩

/-- `main` of `pyiri_year_daily.py` as a fallible computation.  The
PyIRI calls sit inside the per-month `try` of lines 125-189, but the
post-loop plotting (lines 198-236) runs outside any `try`:
`ax2.plot(dates, nmf2_values)` (line 236) raises `ValueError` when the
accumulated series is not exactly one entry per date — `dates` always
has `daysInYear` entries from `generate_f107_timeseries` — and that
exception propagates out of `main` as `.error`.  (The other post-loop
calls pair the equal-length `dates`/`f107_values` arrays or fixed
two-element lists, and the three value series always share a length of
at least `len(dates)`, so line 236 is the uncaught raise site.) -/
def yearDailyMain (year : Nat) (useEdp : Bool) (f : Nat → ℚ)
    (oracleM oracleD : Nat → Except String NDArray) :
    Except String YDState :=
  if (yearDailyRun year useEdp f oracleM oracleD).nmf2.length
      = daysInYear year then
    .ok (yearDailyRun year useEdp f oracleM oracleD)
  else
    .error "x and y must have same first dimension"

/-- CSV written by `pyiri_year_daily.py` (lines 278-284): the fixed
header, then one formatted row per index below `len(dates)` (the row
formatter abstracts the `%`-style float formatting). -/
def yearDailyCsvLines (nDates : Nat) (row : Nat → String) : List String :=
  "Date,F107,NmF2,NmF2_Min,NmF2_Max" :: (List.range nDates).map row

/-- Name of the CSV file of `pyiri_year_daily.py` (line 278). -/
def yearDailyCsvName (locName : String) (year : Nat) (suffix : String) :
    String :=
  "year_data_" ++ locName ++ "_" ++ toString year ++ suffix ++ ".csv"

/-- Full path of the CSV of `pyiri_year_daily.py`:
`os.path.join(args.output, filename)`. -/
def yearDailyCsvPath (output locName : String) (year : Nat)
    (suffix : String) : String :=
  os_path_join output (yearDailyCsvName locName year suffix)

/-! ## Year Monthly Generator (`pyiri_year_plot.py`) -/

/-- NmF2 extraction of `pyiri_year_plot.py` lines 108-129, branching
on the shape of `f2['Nm']`.  Returns the monthly value `nm_data` and,
when the branch sets them, the bounds `(nm_min_val, nm_max_val)`; the
2-axis branch with a singleton second axis sets no bounds (the source
then falls back on `'nm_min_val' in locals()`). -/
def yearPlotExtract (nm : NDArray) : ℚ × Option (ℚ × ℚ) :=
  if nm.ndim = 3 then
    let s2 := nm.shape.getD 2 0
    let v := if s2 > 1 then nm.d [0, 0, 1] else nm.d [0, 0, 0]
    (v, some (nm.d [0, 0, 0],
      if s2 > 1 then nm.d [0, 0, s2 - 1] else v * (13 / 10)))
  else if nm.ndim = 2 then
    let s1 := nm.shape.getD 1 0
    if s1 = 1 then (nm.d [0, 0], none)
    else
      let v := if s1 > 1 then nm.d [0, 1] else nm.d [0, 0]
      (v, some (nm.d [0, 0],
        if s1 > 1 then nm.d [0, s1 - 1] else v * (13 / 10)))
  else
    let v := if nm.ndim = 1 then nm.d [0] else nm.d []
    (v, some (v * (7 / 10), v * (13 / 10)))

/-- Mutable state of `main` in `pyiri_year_plot.py`: the five
accumulated series, the `locals()`-persisted bounds
(`nm_min_val` / `nm_max_val`), and the trace of model calls. -/
structure YPState where
  dates : List (Nat × Nat)
  f107 : List ℚ
  nmf2 : List (Option ℚ)
  mmin : List (Option ℚ)
  mmax : List (Option ℚ)
  lastBounds : Option (ℚ × ℚ)
  calls : List (Nat × Bool)

/-- One month of `main`'s loop in `pyiri_year_plot.py` (lines 79-166).
`f107m` is the month's (single) F10.7 value; the PyIRI monthly-mean
call is the oracle.  On success the day loop (lines 132-155) appends,
for every day of the month, the date, the month's F10.7, the same
extracted `nm_data`, and the bounds — from `locals()` if ever set,
else the `0.7 / 1.3` defaults.  On failure the `except` branch
(lines 157-166) appends the date, the F10.7, and one NaN per day to
the three value series. -/
def ypMonthStep (year : Nat) (oracle : Nat → Except String NDArray)
    (f107 : Nat → ℚ) (st : YPState) (month : Nat) : YPState :=
  let dim := daysInMonth year month
  let days := (List.range dim).map (· + 1)
  let f107m := f107 month
  match oracle month with
  | .error _ =>
    { st with
      dates := st.dates ++ days.map (fun d => (month, d))
      f107 := st.f107 ++ days.map (fun _ => f107m)
      nmf2 := st.nmf2 ++ List.replicate dim none
      mmin := st.mmin ++ List.replicate dim none
      mmax := st.mmax ++ List.replicate dim none
      calls := st.calls ++ [(month, true)] }
  | .ok nm =>
    let e := yearPlotExtract nm
    let bounds : Option (ℚ × ℚ) :=
      match e.2 with
      | some b => some b
      | none => st.lastBounds
    let mn : ℚ := match bounds with
      | some b => b.1
      | none => e.1 * (7 / 10)
    let mx : ℚ := match bounds with
      | some b => b.2
      | none => e.1 * (13 / 10)
    { dates := st.dates ++ days.map (fun d => (month, d))
      f107 := st.f107 ++ days.map (fun _ => f107m)
      nmf2 := st.nmf2 ++ days.map (fun _ => some e.1)
      mmin := st.mmin ++ days.map (fun _ => some mn)
      mmax := st.mmax ++ days.map (fun _ => some mx)
      lastBounds := bounds
      calls := st.calls ++ [(month, true)] }

/-- Initial (empty) state of `pyiri_year_plot.py` `main`. -/
def ypInit : YPState := ⟨[], [], [], [], [], none, []⟩

/-- The 12-month loop of `pyiri_year_plot.py` `main`. -/
def yearPlotRun (year : Nat) (oracle : Nat → Except String NDArray)
    (f107 : Nat → ℚ) : YPState :=
  ((List.range 12).map (· + 1)).foldl (ypMonthStep year oracle f107) ypInit

/-- `main` of `pyiri_year_plot.py` as a fallible computation.  The
PyIRI call sits inside the per-month `try` of lines 100-166; the
post-loop plotting and CSV stage (lines 169-240) runs outside any
`try` and pairs `all_dates` with each of the other four series, so the
plotting package would raise on a first-dimension mismatch — the
embedding checks those lengths, and `yp_foldl_lengths` shows the
check never fails, since every month appends to all five series in
lockstep. -/
def yearPlotMain (year : Nat) (oracle : Nat → Except String NDArray)
    (f107 : Nat → ℚ) : Except String YPState :=
  if (yearPlotRun year oracle f107).f107.length
        = (yearPlotRun year oracle f107).dates.length
      ∧ (yearPlotRun year oracle f107).nmf2.length
        = (yearPlotRun year oracle f107).dates.length
      ∧ (yearPlotRun year oracle f107).mmin.length
        = (yearPlotRun year oracle f107).dates.length
      ∧ (yearPlotRun year oracle f107).mmax.length
        = (yearPlotRun year oracle f107).dates.length then
    .ok (yearPlotRun year oracle f107)
  else
    .error "x and y must have same first dimension"

/-- CSV written by `pyiri_year_plot.py` (lines 234-240): the fixed
header, then one formatted row per index below `len(all_dates)`. -/
def yearPlotCsvLines (nDates : Nat) (row : Nat → String) : List String :=
  "Date,F107,NmF2,Model_Min,Model_Max" :: (List.range nDates).map row

/-- Name of the CSV file of `pyiri_year_plot.py` (line 234). -/
def yearPlotCsvName (locName : String) (year : Nat) : String :=
  "year_data_" ++ locName ++ "_" ++ toString year ++ ".csv"

/-- Full path of the CSV of `pyiri_year_plot.py`:
`os.path.join(args.output, filename)`. -/
def yearPlotCsvPath (output locName : String) (year : Nat) : String :=
  os_path_join output (yearPlotCsvName locName year)

/-! ## Sample inputs for concrete evaluations -/

/-- A `[time, location]`-shaped sample array. -/
def nd2 : NDArray := ⟨[24, 4], fun idx => (idx.sum : ℚ)⟩

/-- A one-axis sample array (an unexpected shape for the runner). -/
def nd1 : NDArray := ⟨[24], fun idx => (idx.sum : ℚ)⟩

/-- A sample model output whose arrays all have one axis. -/
def mOut1 : ModelOut := ⟨nd1, nd1, nd1, nd1, none⟩

/-- Sample arguments selecting the global map. -/
def argsG : RunnerArgs := ⟨true, 12, false, false, ["foF2"], 4⟩

/-! ## C1 — shape normalisation in the global branch -/

/-- C1: in the Single/Global Runner's global branch, a 2-axis
`f2['fo']` selects the `args.hour` row (`[time, location]`), a 3-axis
one selects hour `args.hour` on axis 0 and the last index on axis 2
(`[time, location, solar]`), and any other axis count makes the
global-plot stage return with no per-parameter plots produced. -/
theorem global_shape_normalization (hour : Nat) (fo hm nm : NDArray)
    (a : RunnerArgs) (m : ModelOut) :
    (fo.ndim = 2 → extractGlobalData hour fo hm nm =
      some (rowAtHour hour fo, rowAtHour hour hm, rowAtHour hour nm)) ∧
    (fo.ndim = 3 → extractGlobalData hour fo hm nm =
      some (rowAtHourLastSolar hour fo, rowAtHourLastSolar hour hm,
        rowAtHourLastSolar hour nm)) ∧
    (m.fo.ndim ≠ 2 → m.fo.ndim ≠ 3 → a.globalMap = true →
      extractGlobalData a.hour m.fo m.hm m.nm = none ∧
      ∃ r, runnerMain a (.ok m) = .ok r ∧ r.plots = []) := by
  refine ⟨fun h => by simp [extractGlobalData, h],
    fun h => by simp [extractGlobalData, h], fun h2 h3 hg => ?_⟩
  have he : extractGlobalData a.hour m.fo m.hm m.nm = none := by
    simp [extractGlobalData, h2, h3]
  exact ⟨he, ⟨1, [], ["Unexpected shape"]⟩, by simp [runnerMain, hg, he], rfl⟩

/-- Concrete instance of `global_shape_normalization`: a one-axis
`f2['fo']` makes the global stage abort with no plots. -/
theorem global_shape_normalization_witness :
    extractGlobalData 12 mOut1.fo mOut1.hm mOut1.nm = none ∧
    ∃ r, runnerMain argsG (.ok mOut1) = .ok r ∧ r.plots = [] :=
  (global_shape_normalization 12 nd1 nd1 nd1 argsG mOut1).2.2
    (by decide) (by decide) rfl

/-! ## Model-call traces and report helpers -/

/-- Number of PyIRI calls reported by a runner result. -/
def reportCalls : Except String RunnerReport → Nat
  | .ok r => r.calls
  | .error _ => 0

/-- Each month step of `pyiri_year_plot.py` performs exactly one
monthly-mean model call, in both the success and the except branch. -/
theorem ypMonthStep_calls (year : Nat) (o : Nat → Except String NDArray)
    (f : Nat → ℚ) (st : YPState) (m : Nat) :
    (ypMonthStep year o f st m).calls = st.calls ++ [(m, true)] := by
  unfold ypMonthStep
  cases o m <;> simp

/-- Call trace of the folded month loop of `pyiri_year_plot.py`. -/
theorem yearPlot_foldl_calls (year : Nat) (o : Nat → Except String NDArray)
    (f : Nat → ℚ) :
    ∀ (ms : List Nat) (st : YPState),
      (ms.foldl (ypMonthStep year o f) st).calls
        = st.calls ++ ms.map (fun m => (m, true))
  | [], st => by simp
  | m :: rest, st => by
    rw [List.foldl_cons, yearPlot_foldl_calls year o f rest, ypMonthStep_calls]
    simp

/-- Each monthly-mean month step of `pyiri_year_daily.py` performs
exactly one model call. -/
theorem ydMonthStep_calls (year : Nat) (f : Nat → ℚ)
    (oM oD : Nat → Except String NDArray) (st : YDState) (m : Nat) :
    (ydMonthStep year false f oM oD st m).calls = st.calls ++ [(m, true)] := by
  unfold ydMonthStep
  cases oM m <;> simp

/-- Call trace of the folded month loop of `pyiri_year_daily.py` in
monthly-mean mode. -/
theorem yearDaily_foldl_calls (year : Nat) (f : Nat → ℚ)
    (oM oD : Nat → Except String NDArray) :
    ∀ (ms : List Nat) (st : YDState),
      (ms.foldl (ydMonthStep year false f oM oD) st).calls
        = st.calls ++ ms.map (fun m => (m, true))
  | [], st => by simp
  | m :: rest, st => by
    rw [List.foldl_cons, yearDaily_foldl_calls year f oM oD rest,
      ydMonthStep_calls]
    simp

/-! ## vTEC branch lemmas (shared by the vTEC claims) -/

/-- Three axes with `shape[1] = len(aalt)`: integrate axis 1, take the
hour row, scale to TECU. -/
theorem vtecCore_dim3_axis1 (hour naalt : Nat) (altStep : ℚ)
    (edp : NDArray) (h3 : edp.ndim = 3) (h1 : edp.shape.getD 1 0 = naalt) :
    vtecCore hour naalt altStep edp = .ok ⟨edp.shape.getD 2 0,
      fun j => trapzLine (altStep * 1000) naalt
        (fun k => edp.d [hour, k, j]) * (1 / 10 ^ 16)⟩ := by
  simp only [vtecCore, np_trapezoid]
  rw [if_pos h3, if_pos h1, h1]
  rfl

/-- Three axes with `shape[1] ≠ len(aalt)` but `shape[2] = len(aalt)`:
integrate axis 2, take the hour row, scale to TECU. -/
theorem vtecCore_dim3_axis2 (hour naalt : Nat) (altStep : ℚ)
    (edp : NDArray) (h3 : edp.ndim = 3) (h1 : edp.shape.getD 1 0 ≠ naalt)
    (h2 : edp.shape.getD 2 0 = naalt) :
    vtecCore hour naalt altStep edp = .ok ⟨edp.shape.getD 1 0,
      fun j => trapzLine (altStep * 1000) naalt
        (fun k => edp.d [hour, j, k]) * (1 / 10 ^ 16)⟩ := by
  simp only [vtecCore, np_trapezoid]
  rw [if_pos h3, if_neg h1, if_pos h2, h2]
  rfl

/-- Three axes, neither axis 1 nor axis 2 matching `len(aalt)`: the
stage raises `ValueError`. -/
theorem vtecCore_dim3_fails (hour naalt : Nat) (altStep : ℚ)
    (edp : NDArray) (h3 : edp.ndim = 3) (h1 : edp.shape.getD 1 0 ≠ naalt)
    (h2 : edp.shape.getD 2 0 ≠ naalt) :
    vtecCore hour naalt altStep edp =
      .error "Cannot determine altitude axis" := by
  simp only [vtecCore, np_trapezoid]
  rw [if_pos h3, if_neg h1, if_neg h2]

/-- Two axes with `shape[1] = len(aalt)`: integrate axis 1 and scale —
with no hour extraction. -/
theorem vtecCore_dim2_axis1 (hour naalt : Nat) (altStep : ℚ)
    (edp : NDArray) (h2 : edp.ndim = 2) (h1 : edp.shape.getD 1 0 = naalt) :
    vtecCore hour naalt altStep edp = .ok ⟨edp.shape.getD 0 0,
      fun i => trapzLine (altStep * 1000) naalt
        (fun k => edp.d [i, k]) * (1 / 10 ^ 16)⟩ := by
  have h3 : ¬ edp.ndim = 3 := by omega
  simp only [vtecCore, np_trapezoid]
  rw [if_neg h3, if_pos h2, if_pos h1, h1]
  rfl

/-- Two axes with `shape[1] ≠ len(aalt)`: the stage does NOT fail —
it integrates axis 0 unconditionally, whether or not
`shape[0] = len(aalt)`. -/
theorem vtecCore_dim2_axis0 (hour naalt : Nat) (altStep : ℚ)
    (edp : NDArray) (h2 : edp.ndim = 2) (h1 : edp.shape.getD 1 0 ≠ naalt) :
    vtecCore hour naalt altStep edp = .ok ⟨edp.shape.getD 1 0,
      fun j => trapzLine (altStep * 1000) (edp.shape.getD 0 0)
        (fun k => edp.d [k, j]) * (1 / 10 ^ 16)⟩ := by
  have h3 : ¬ edp.ndim = 3 := by omega
  simp only [vtecCore, np_trapezoid]
  rw [if_neg h3, if_pos h2, if_neg h1]
  rfl

/-- Any other axis count: the stage raises `ValueError`. -/
theorem vtecCore_dim_other (hour naalt : Nat) (altStep : ℚ)
    (edp : NDArray) (h3 : edp.ndim ≠ 3) (h2 : edp.ndim ≠ 2) :
    vtecCore hour naalt altStep edp = .error "Cannot process EDP data" := by
  simp only [vtecCore, np_trapezoid]
  rw [if_neg h3, if_neg h2]

/-! ## C3 — the vTEC trapezoidal integration -/

/-- A 2-axis EDP sample in which NO axis has the altitude length 3. -/
def edpCx : NDArray := ⟨[2, 2], fun idx => (idx.sum : ℚ)⟩

/-- A `[time, altitude, location]` EDP sample with altitude length 3
and samples 1, 2, 3 along the altitude axis. -/
def edp311 : NDArray := ⟨[1, 3, 1], fun idx => (idx.getD 1 0 + 1 : ℚ)⟩

/-- The TEC vector `vtecCore` computes for `edp311`. -/
def tCx : Arr1 :=
  ⟨1, fun j => trapzLine (10 * 1000) 3
    (fun k => edp311.d [0, k, j]) * (1 / 10 ^ 16)⟩

/-- C3 counterexample: for a 2-axis `edp` in which no axis size equals
`len(aalt)` (here 3), the vTEC stage does NOT fail — `vtecCore`
returns `ok` (the source integrates axis 0 unconditionally in its
2-axis `else` branch). -/
theorem vtec_no_matching_axis_still_succeeds :
    edpCx.ndim = 2 ∧ edpCx.shape.getD 0 0 ≠ 3 ∧ edpCx.shape.getD 1 0 ≠ 3 ∧
    exceptOk (vtecCore 12 3 10 edpCx) = true :=
  ⟨rfl, by decide, by decide, rfl⟩

/-- C3 (amended): the vTEC value is the trapezoidal integral of `edp`
along the detected altitude axis with spacing `(aalt[1]-aalt[0])*1000`,
scaled by `1e-16`; for 3-axis input the hour `args.hour` row is
extracted and a failure to find the altitude axis raises; for 2-axis
input there is no hour extraction, a matching axis 1 is integrated,
and otherwise axis 0 is integrated unconditionally (no failure);
axis counts other than 2 and 3 raise. -/
theorem vtec_trapezoid_shape_cases (hour naalt : Nat) (altStep : ℚ)
    (edp : NDArray) :
    (edp.ndim = 3 → edp.shape.getD 1 0 = naalt →
      vtecCore hour naalt altStep edp = .ok ⟨edp.shape.getD 2 0,
        fun j => trapzLine (altStep * 1000) naalt
          (fun k => edp.d [hour, k, j]) * (1 / 10 ^ 16)⟩) ∧
    (edp.ndim = 3 → edp.shape.getD 1 0 ≠ naalt →
      edp.shape.getD 2 0 = naalt →
      vtecCore hour naalt altStep edp = .ok ⟨edp.shape.getD 1 0,
        fun j => trapzLine (altStep * 1000) naalt
          (fun k => edp.d [hour, j, k]) * (1 / 10 ^ 16)⟩) ∧
    (edp.ndim = 3 → edp.shape.getD 1 0 ≠ naalt →
      edp.shape.getD 2 0 ≠ naalt →
      vtecCore hour naalt altStep edp =
        .error "Cannot determine altitude axis") ∧
    (edp.ndim = 2 → edp.shape.getD 1 0 = naalt →
      vtecCore hour naalt altStep edp = .ok ⟨edp.shape.getD 0 0,
        fun i => trapzLine (altStep * 1000) naalt
          (fun k => edp.d [i, k]) * (1 / 10 ^ 16)⟩) ∧
    (edp.ndim = 2 → edp.shape.getD 1 0 ≠ naalt →
      vtecCore hour naalt altStep edp = .ok ⟨edp.shape.getD 1 0,
        fun j => trapzLine (altStep * 1000) (edp.shape.getD 0 0)
          (fun k => edp.d [k, j]) * (1 / 10 ^ 16)⟩) ∧
    (edp.ndim ≠ 3 → edp.ndim ≠ 2 →
      vtecCore hour naalt altStep edp =
        .error "Cannot process EDP data") :=
  ⟨vtecCore_dim3_axis1 hour naalt altStep edp,
    vtecCore_dim3_axis2 hour naalt altStep edp,
    vtecCore_dim3_fails hour naalt altStep edp,
    vtecCore_dim2_axis1 hour naalt altStep edp,
    vtecCore_dim2_axis0 hour naalt altStep edp,
    vtecCore_dim_other hour naalt altStep edp⟩

/-- Concrete instance of `vtec_trapezoid_shape_cases` on the
`[1, 3, 1]` sample. -/
theorem vtec_trapezoid_shape_cases_witness :
    vtecCore 0 3 10 edp311 = .ok ⟨1,
      fun j => trapzLine (10 * 1000) 3
        (fun k => edp311.d [0, k, j]) * (1 / 10 ^ 16)⟩ :=
  (vtec_trapezoid_shape_cases 0 3 10 edp311).1 rfl rfl

/-! ## C4 — integration is performed by this code, not delegated -/

/-- C4 counterexample: the runner's own vTEC stage evaluates the
trapezoidal integral of the raw model EDP — here the plotted value is
the trapezoidal rule applied by the script to the samples 1, 2, 3 with
spacing 10000 m, i.e. 40000 (scaled to TECU) — so the numerical
integration happens in this repository's code path, not in PyIRI or
the plotting package. -/
theorem vtec_integration_computed_here :
    vtecPipeline 0 3 10 edp311 1 = .plotted ⟨1,
      fun j => trapzLine (10 * 1000) 3
        (fun k => edp311.d [0, k, j]) * (1 / 10 ^ 16)⟩ ∧
    trapzLine (10 * 1000) 3 (fun k => edp311.d [0, k, 0]) = 40000 :=
  ⟨rfl, by norm_num [trapzLine, edp311, List.range_succ, List.getD]⟩

/-- C4 (amended): the IRI model evaluation and the rendering are
delegated, but the vTEC integration is computed by the runner itself:
for a `[time, altitude, location]` EDP whose location count matches
the grid, the plotted TEC vector is exactly the script-side
trapezoidal integral of the model's electron densities. -/
theorem vtec_integration_in_runner (hour naalt : Nat) (altStep : ℚ)
    (edp : NDArray) (grid : Nat) (h3 : edp.ndim = 3)
    (h1 : edp.shape.getD 1 0 = naalt) (hg : edp.shape.getD 2 0 = grid) :
    vtecPipeline hour naalt altStep edp grid = .plotted ⟨grid,
      fun j => trapzLine (altStep * 1000) naalt
        (fun k => edp.d [hour, k, j]) * (1 / 10 ^ 16)⟩ := by
  unfold vtecPipeline
  rw [vtecCore_dim3_axis1 hour naalt altStep edp h3 h1, hg]
  simp [Except.bind, fixSize]

/-- Concrete instance of `vtec_integration_in_runner`. -/
theorem vtec_integration_in_runner_witness :
    vtecPipeline 12 3 10 edp311 1 = .plotted ⟨1,
      fun j => trapzLine (10 * 1000) 3
        (fun k => edp311.d [12, k, j]) * (1 / 10 ^ 16)⟩ :=
  vtec_integration_in_runner 12 3 10 edp311 1 rfl rfl rfl

/-! ## C10 — asymmetric size fix-up of the TEC vector -/

/-- C10: when the TEC vector's size differs from the grid size, a
larger vector is silently truncated to the first `grid` elements and
the plot is produced, while a smaller one raises `ValueError`, which
the stage catches and logs, writing no vTEC plot. -/
theorem vtec_size_mismatch_asymmetry (hour naalt : Nat) (altStep : ℚ)
    (edp : NDArray) (grid : Nat) (t : Arr1)
    (hok : vtecCore hour naalt altStep edp = .ok t) :
    (t.n > grid →
      vtecPipeline hour naalt altStep edp grid = .plotted ⟨grid, t.d⟩) ∧
    (t.n < grid →
      vtecPipeline hour naalt altStep edp grid = .logged
        ("vTEC calculation failed: " ++ ("TEC data too small: "
          ++ toString t.n ++ " < " ++ toString grid))) := by
  constructor <;> intro h <;> unfold vtecPipeline <;> rw [hok]
  · have hne : ¬ t.n = grid := by omega
    simp [Except.bind, fixSize, hne, h]
  · have hne : ¬ t.n = grid := by omega
    have hng : ¬ t.n > grid := by omega
    simp [Except.bind, fixSize, hne, hng]

/-- Concrete instance of `vtec_size_mismatch_asymmetry`: against a
0-point grid the 1-element TEC vector is truncated and plotted;
against a 2-point grid the stage logs the size error. -/
theorem vtec_size_mismatch_asymmetry_witness :
    vtecPipeline 0 3 10 edp311 0 = .plotted ⟨0, tCx.d⟩ ∧
    vtecPipeline 0 3 10 edp311 2 = .logged
      ("vTEC calculation failed: " ++ ("TEC data too small: "
        ++ toString tCx.n ++ " < " ++ toString (2 : Nat))) :=
  ⟨(vtec_size_mismatch_asymmetry 0 3 10 edp311 0 tCx rfl).1 (by decide),
    (vtec_size_mismatch_asymmetry 0 3 10 edp311 2 tCx rfl).2 (by decide)⟩

/-! ## C5 — the Year Monthly Generator repeats the monthly value -/

/-- A `[time, location, solar]` sample with distinct NmF2 values for
the three solar-activity levels: minimum 1, middle 2, maximum 4. -/
def nm3 : NDArray :=
  ⟨[1, 1, 3], fun idx =>
    if idx.getD 2 0 = 0 then 1 else if idx.getD 2 0 = 1 then 2 else 4⟩

/-- C5 counterexample: in `pyiri_year_plot.py` a successful January
with monthly NmF2 value 2 and model bounds 1 and 4 stores the SAME
value 2 for all 31 days — no daily value is scaled against the bounds,
they are stored unchanged alongside. -/
theorem year_plot_days_not_scaled :
    (ypMonthStep 2021 (fun _ => .ok nm3) (fun _ => 120) ypInit 1).nmf2
      = List.replicate 31 (some (2 : ℚ)) ∧
    (ypMonthStep 2021 (fun _ => .ok nm3) (fun _ => 120) ypInit 1).mmin
      = List.replicate 31 (some (1 : ℚ)) ∧
    (ypMonthStep 2021 (fun _ => .ok nm3) (fun _ => 120) ypInit 1).mmax
      = List.replicate 31 (some (4 : ℚ)) ∧
    daysInMonth 2021 1 = 31 :=
  ⟨rfl, rfl, rfl, rfl⟩

/-- C5 (amended): the Year Monthly Generator computes monthly-mean
parameters only (all model calls are the monthly-mean call) and, for
every day of a successful month, stores the SAME extracted monthly
NmF2 value unchanged; no scaling against the reported bounds is
applied (that scaling lives in the Year Daily Generator). -/
theorem year_plot_repeats_monthly_value (year month : Nat)
    (oracle : Nat → Except String NDArray) (f107 : Nat → ℚ)
    (st : YPState) (nm : NDArray) (hok : oracle month = .ok nm) :
    (ypMonthStep year oracle f107 st month).nmf2
      = st.nmf2 ++ List.replicate (daysInMonth year month)
          (some (yearPlotExtract nm).1) ∧
    (yearPlotRun year oracle f107).calls
      = (List.range 12).map (fun k => (k + 1, true)) := by
  constructor
  · unfold ypMonthStep
    rw [hok]
    simp [List.map_const', List.length_map, List.length_range, -List.map_map]
  · rw [yearPlotRun, yearPlot_foldl_calls]
    simp [ypInit, List.map_map]

/-- Concrete instance of `year_plot_repeats_monthly_value`. -/
theorem year_plot_repeats_monthly_value_witness :
    (ypMonthStep 2021 (fun _ => .ok nm3) (fun _ => 120) ypInit 1).nmf2
      = ypInit.nmf2 ++ List.replicate (daysInMonth 2021 1)
          (some (yearPlotExtract nm3).1) ∧
    (yearPlotRun 2021 (fun _ => .ok nm3) (fun _ => 120)).calls
      = (List.range 12).map (fun k => (k + 1, true)) :=
  year_plot_repeats_monthly_value 2021 1 (fun _ => .ok nm3) (fun _ => 120)
    ypInit nm3 rfl

/-! ## C8 — series lengths after the month loop -/

/-- A `[time, location]` scalar-like sample for the daily-EDP path. -/
def ndSc : NDArray := ⟨[1, 1], fun _ => 2⟩

set_option maxRecDepth 40000 in
/-- C8 counterexample: in the Year Daily Generator's EDP path, a model
failure on the SECOND day of January leaves the first day's value in
place and then appends one NaN per day of the whole month, so after
the 12-month loop the series holds 366 entries for the 365-day year
2021. -/
theorem year_daily_edp_length_overflow :
    (yearDailyRun 2021 true (fun _ => 100) (fun _ => .error "m")
      (fun d => if d = 0 then .ok ndSc else .error "model")).nmf2.length
      = 366 ∧
    daysInYear 2021 = 365 :=
  ⟨rfl, rfl⟩

/-- The successful prefix of the per-day EDP loop is never longer than
the month. -/
theorem ydEdpDays_len (o : Nat → Except String NDArray) :
    ∀ days : List Nat, (ydEdpDays o days).1.length ≤ days.length
  | [] => by simp [ydEdpDays]
  | d :: rest => by
    unfold ydEdpDays
    cases o d with
    | error e => simp
    | ok nm => simpa using ydEdpDays_len o rest

/-- A monthly-mean month step of the Year Daily Generator appends
exactly one entry per day of the month to each of the three series,
in the success branch and in the except branch alike. -/
theorem ydMonthStep_lengths (year : Nat) (f : Nat → ℚ)
    (oM oD : Nat → Except String NDArray) (st : YDState) (m : Nat) :
    (ydMonthStep year false f oM oD st m).nmf2.length
        = st.nmf2.length + daysInMonth year m ∧
    (ydMonthStep year false f oM oD st m).nmin.length
        = st.nmin.length + daysInMonth year m ∧
    (ydMonthStep year false f oM oD st m).nmax.length
        = st.nmax.length + daysInMonth year m := by
  unfold ydMonthStep
  cases oM m <;> simp [ydMonthIdxs]

/-- Folded form of `ydMonthStep_lengths`. -/
theorem yd_foldl_lengths (year : Nat) (f : Nat → ℚ)
    (oM oD : Nat → Except String NDArray) :
    ∀ (ms : List Nat) (st : YDState),
      ((ms.foldl (ydMonthStep year false f oM oD) st).nmf2.length
          = st.nmf2.length + (ms.map (daysInMonth year)).sum) ∧
      ((ms.foldl (ydMonthStep year false f oM oD) st).nmin.length
          = st.nmin.length + (ms.map (daysInMonth year)).sum) ∧
      ((ms.foldl (ydMonthStep year false f oM oD) st).nmax.length
          = st.nmax.length + (ms.map (daysInMonth year)).sum)
  | [], st => by simp
  | m :: rest, st => by
    have ih := yd_foldl_lengths year f oM oD rest
      (ydMonthStep year false f oM oD st m)
    have hs := ydMonthStep_lengths year f oM oD st m
    refine ⟨?_, ?_, ?_⟩ <;>
      simp [List.foldl_cons, ih.1, ih.2.1, ih.2.2, hs.1, hs.2.1, hs.2.2] <;>
      omega

/-- A month step of the Year Monthly Generator appends exactly one
entry per day of the month to each of the five series. -/
theorem ypMonthStep_lengths (year : Nat)
    (o : Nat → Except String NDArray) (f : Nat → ℚ)
    (st : YPState) (m : Nat) :
    (ypMonthStep year o f st m).dates.length
        = st.dates.length + daysInMonth year m ∧
    (ypMonthStep year o f st m).f107.length
        = st.f107.length + daysInMonth year m ∧
    (ypMonthStep year o f st m).nmf2.length
        = st.nmf2.length + daysInMonth year m ∧
    (ypMonthStep year o f st m).mmin.length
        = st.mmin.length + daysInMonth year m ∧
    (ypMonthStep year o f st m).mmax.length
        = st.mmax.length + daysInMonth year m := by
  unfold ypMonthStep
  cases o m <;> simp

/-- Folded form of `ypMonthStep_lengths`. -/
theorem yp_foldl_lengths (year : Nat) (o : Nat → Except String NDArray)
    (f : Nat → ℚ) :
    ∀ (ms : List Nat) (st : YPState),
      ((ms.foldl (ypMonthStep year o f) st).dates.length
          = st.dates.length + (ms.map (daysInMonth year)).sum) ∧
      ((ms.foldl (ypMonthStep year o f) st).f107.length
          = st.f107.length + (ms.map (daysInMonth year)).sum) ∧
      ((ms.foldl (ypMonthStep year o f) st).nmf2.length
          = st.nmf2.length + (ms.map (daysInMonth year)).sum) ∧
      ((ms.foldl (ypMonthStep year o f) st).mmin.length
          = st.mmin.length + (ms.map (daysInMonth year)).sum) ∧
      ((ms.foldl (ypMonthStep year o f) st).mmax.length
          = st.mmax.length + (ms.map (daysInMonth year)).sum)
  | [], st => by simp
  | m :: rest, st => by
    have ih := yp_foldl_lengths year o f rest (ypMonthStep year o f st m)
    have hs := ypMonthStep_lengths year o f st m
    refine ⟨?_, ?_, ?_, ?_, ?_⟩ <;>
      simp [List.foldl_cons, ih.1, ih.2.1, ih.2.2.1, ih.2.2.2.1,
        ih.2.2.2.2, hs.1, hs.2.1, hs.2.2.1, hs.2.2.2.1, hs.2.2.2.2] <;>
      omega

/-- The 12 month lengths sum to the length of the year. -/
theorem sum_daysInMonth (year : Nat) :
    (((List.range 12).map (· + 1)).map (daysInMonth year)).sum
      = daysInYear year := by
  have h : (List.range 12).map (· + 1)
      = [1, 2, 3, 4, 5, 6, 7, 8, 9, 10, 11, 12] := rfl
  rw [h]
  cases hl : isLeap year <;> simp [daysInMonth, daysInYear, hl]

/-- C8 (amended): in the monthly-mean paths the invariant holds — after
the 12-month loop every series has exactly one entry per day of the
year, a failed month contributing exactly one NaN per day — but in the
Year Daily Generator's EDP path a month whose model call fails mid-month
appends its partial successful prefix AND one NaN per day of the month,
so the series can exceed the number of days in the year. -/
theorem year_series_lengths (year month : Nat) (f fp : Nat → ℚ)
    (oM oD oP : Nat → Except String NDArray) (st : YDState) :
    ((yearDailyRun year false f oM oD).nmf2.length = daysInYear year ∧
     (yearDailyRun year false f oM oD).nmin.length = daysInYear year ∧
     (yearDailyRun year false f oM oD).nmax.length = daysInYear year) ∧
    ((yearPlotRun year oP fp).dates.length = daysInYear year ∧
     (yearPlotRun year oP fp).f107.length = daysInYear year ∧
     (yearPlotRun year oP fp).nmf2.length = daysInYear year ∧
     (yearPlotRun year oP fp).mmin.length = daysInYear year ∧
     (yearPlotRun year oP fp).mmax.length = daysInYear year) ∧
    ((ydEdpDays oD (ydMonthIdxs year month)).2.1 = true →
      (ydMonthStep year true f oM oD st month).nmf2
        = st.nmf2
          ++ ((ydEdpDays oD (ydMonthIdxs year month)).1.map some
          ++ List.replicate (daysInMonth year month) none)) ∧
    ((ydEdpDays oD (ydMonthIdxs year month)).1.length
        ≤ daysInMonth year month) := by
  refine ⟨?_, ?_, ?_, ?_⟩
  · have h := yd_foldl_lengths year f oM oD ((List.range 12).map (· + 1))
      ⟨[], [], [], []⟩
    rw [sum_daysInMonth] at h
    simpa [yearDailyRun] using h
  · have h := yp_foldl_lengths year oP fp ((List.range 12).map (· + 1)) ypInit
    rw [sum_daysInMonth] at h
    simpa [yearPlotRun, ypInit] using h
  · intro hE
    unfold ydMonthStep
    simp [hE]
  · have h := ydEdpDays_len oD (ydMonthIdxs year month)
    simpa [ydMonthIdxs] using h

/-- Concrete instance of `year_series_lengths`: the January-fails-on-
day-two oracle appends 1 partial entry plus 31 NaNs. -/
theorem year_series_lengths_witness :
    (ydMonthStep 2021 true (fun _ => 100) (fun _ => .error "m")
        (fun d => if d = 0 then .ok ndSc else .error "model")
        ⟨[], [], [], []⟩ 1).nmf2
      = ([] : List (Option ℚ))
        ++ ((ydEdpDays (fun d => if d = 0 then .ok ndSc else .error "model")
            (ydMonthIdxs 2021 1)).1.map some
          ++ List.replicate (daysInMonth 2021 1) none) :=
  ((year_series_lengths 2021 1 (fun _ => 100) (fun _ => 100)
    (fun _ => .error "m")
    (fun d => if d = 0 then .ok ndSc else .error "model")
    (fun _ => .error "p") ⟨[], [], [], []⟩).2.2.1) rfl

/-! ## C9 — the daily scaling factor is guarded and clipped -/

/-- C9: the scaling factor is exactly 1 whenever the month's average
F10.7 is at most 70 (so the division is only taken with a positive
denominator), otherwise it is the clipped ratio; in all cases it lies
in `[0.5, 2.0]`, hence every interpolated daily NmF2 value lies
between 0.5 and 2.0 times the monthly value. -/
theorem daily_scale_guarded (d a : ℚ) :
    (a ≤ 70 → dailyScale d a = 1) ∧
    (70 < a → 0 < a - 70 ∧
      dailyScale d a = np_clip ((d - 70) / (a - 70)) (1 / 2) 2) ∧
    (1 / 2 ≤ dailyScale d a ∧ dailyScale d a ≤ 2) ∧
    (∀ nm : ℚ, 0 ≤ nm →
      (1 / 2) * nm ≤ ydDailyValue nm d a ∧ ydDailyValue nm d a ≤ 2 * nm) := by
  have hb : 1 / 2 ≤ dailyScale d a ∧ dailyScale d a ≤ 2 := by
    constructor
    · exact le_max_left _ _
    · exact max_le (by norm_num) (min_le_left _ _)
  refine ⟨fun h => ?_, fun h => ⟨by linarith, ?_⟩, hb, fun nm hnm => ?_⟩
  · have hng : ¬ a > 70 := not_lt.2 h
    simp [dailyScale, np_clip, hng]
    norm_num
  · simp [dailyScale, np_clip, h]
  · constructor
    · calc (1 / 2) * nm = nm * (1 / 2) := by ring
        _ ≤ nm * dailyScale d a := by
            exact mul_le_mul_of_nonneg_left hb.1 hnm
        _ = ydDailyValue nm d a := rfl
    · calc ydDailyValue nm d a = nm * dailyScale d a := rfl
        _ ≤ nm * 2 := mul_le_mul_of_nonneg_left hb.2 hnm
        _ = 2 * nm := by ring

/-- Concrete instance of `daily_scale_guarded`: a month average of 68
(at most 70) forces scale 1, and the bound conjunct at monthly value
3. -/
theorem daily_scale_guarded_witness :
    dailyScale 100 68 = 1 ∧
    ((1 / 2) * 3 ≤ ydDailyValue 3 100 68 ∧ ydDailyValue 3 100 68 ≤ 2 * 3) :=
  ⟨(daily_scale_guarded 100 68).1 (by norm_num),
    (daily_scale_guarded 100 68).2.2.2 3 (by norm_num)⟩

/-! ## C6 — the synthetic year of F10.7 values -/

/-- A predicate holding of the default also holds of every `getD`. -/
theorem list_getD_pred {α : Type} (P : α → Prop) (d : α) (hd : P d) :
    ∀ (l : List α), (∀ x ∈ l, P x) → ∀ i, P (l.getD i d)
  | [], _, i => by simpa [List.getD] using hd
  | x :: l, h, 0 => h x (List.mem_cons_self x l)
  | x :: l, h, (i + 1) =>
    list_getD_pred P d hd l (fun y hy => h y (List.mem_cons_of_mem x hy)) i

/-- C6: for every year, `generate_f107_timeseries` returns one date
per calendar day from January 1 to December 31 (365 values, 366 in a
leap year) and, for each day `t`, the value is the clipped sum of the
constant base 110, the annual sinusoid, the 27-day rotation sinusoid,
the stochastic flare pulses and the daily noise, so that every
returned value lies in `[70, 250]`. -/
theorem f107_timeseries_spec (year : Nat)
    (events : List (Nat × Nat × ℝ)) (randn : Nat → ℝ) :
    (generate_f107_timeseries year events randn).1
      = List.range (daysInYear year) ∧
    (generate_f107_timeseries year events randn).1.length
      = daysInYear year ∧
    (generate_f107_timeseries year events randn).2.length
      = daysInYear year ∧
    daysInYear year = (if isLeap year then 366 else 365) ∧
    (generate_f107_timeseries year events randn).2
      = (List.range (daysInYear year)).map (fun (t : Nat) =>
          np_clipR (110 + 20 * Real.sin (2 * Real.pi * (t : ℝ) / 365.25)
            + 15 * Real.sin (2 * Real.pi * (t : ℝ) / 27)
            + flareComponent (daysInYear year) events t
            + 5 * randn t) 70 250) ∧
    (∀ i : Nat,
      70 ≤ (generate_f107_timeseries year events randn).2.getD i 70 ∧
      (generate_f107_timeseries year events randn).2.getD i 70 ≤ 250) := by
  refine ⟨rfl, by simp [generate_f107_timeseries], ?_, rfl, rfl, ?_⟩
  · simp [generate_f107_timeseries]
  · have hall : ∀ x ∈ (generate_f107_timeseries year events randn).2,
        70 ≤ x ∧ x ≤ 250 := by
      intro x hx
      obtain ⟨t, _, rfl⟩ := List.mem_map.1 hx
      refine ⟨le_max_left _ _, max_le (by norm_num) (min_le_left _ _)⟩
    intro i
    exact list_getD_pred (fun x => 70 ≤ x ∧ x ≤ 250) 70 (by norm_num)
      _ hall i

/-! ## C7 — CSV files: location, header, one row per date -/

/-- The Year Daily CSV file name starts with the letter `y`. -/
theorem yearDailyCsvName_head (locName : String) (year : Nat)
    (suffix : String) :
    (yearDailyCsvName locName year suffix).data.head? = some 'y' := by
  have h : ("year_data_" : String).data.head? = some 'y' := rfl
  simp [yearDailyCsvName, String.data_append, List.head?_append, h]

/-- The Year Monthly CSV file name starts with the letter `y`. -/
theorem yearPlotCsvName_head (locName : String) (year : Nat) :
    (yearPlotCsvName locName year).data.head? = some 'y' := by
  have h : ("year_data_" : String).data.head? = some 'y' := rfl
  simp [yearPlotCsvName, String.data_append, List.head?_append, h]

/-- `os.path.join` keeps a relative second component inside the first:
the result is the first component followed by some rest. -/
theorem os_path_join_inside (a b : String)
    (h : b.data.head? ≠ some '/') :
    ∃ rest, os_path_join a b = a ++ rest := by
  unfold os_path_join
  rw [if_neg h]
  by_cases ha : a = ""
  · rw [if_pos ha]
    exact ⟨b, by rw [ha, String.empty_append]⟩
  · rw [if_neg ha]
    by_cases he : a.data.getLast? = some '/'
    · rw [if_pos he]
      exact ⟨b, rfl⟩
    · rw [if_neg he]
      exact ⟨"/" ++ b, String.append_assoc a "/" b⟩

/-- C7: each year generator's CSV is placed inside the user-specified
output directory, starts with its fixed header line
(`Date,F107,NmF2,NmF2_Min,NmF2_Max` for the Year Daily Generator,
`Date,F107,NmF2,Model_Min,Model_Max` for the Year Monthly Generator),
and is followed by exactly one data row per stored date. -/
theorem csv_fixed_headers (output locName : String) (year : Nat)
    (suffix : String) (nD nP : Nat) (rowD rowP : Nat → String) :
    (∃ rest, yearDailyCsvPath output locName year suffix
        = output ++ rest) ∧
    (yearDailyCsvLines nD rowD).head?
        = some "Date,F107,NmF2,NmF2_Min,NmF2_Max" ∧
    (yearDailyCsvLines nD rowD).length = nD + 1 ∧
    (yearDailyCsvLines nD rowD).tail = (List.range nD).map rowD ∧
    (∃ rest, yearPlotCsvPath output locName year = output ++ rest) ∧
    (yearPlotCsvLines nP rowP).head?
        = some "Date,F107,NmF2,Model_Min,Model_Max" ∧
    (yearPlotCsvLines nP rowP).length = nP + 1 ∧
    (yearPlotCsvLines nP rowP).tail = (List.range nP).map rowP := by
  refine ⟨?_, rfl, by simp [yearDailyCsvLines], rfl, ?_, rfl,
    by simp [yearPlotCsvLines], rfl⟩
  · exact os_path_join_inside output _
      (by rw [yearDailyCsvName_head]; simp)
  · exact os_path_join_inside output _
      (by rw [yearPlotCsvName_head]; simp)

/-! ## C2 — where exception handling actually ends -/

/-- A model output whose arrays pair correctly with the 24-hour axis. -/
def mOut2 : ModelOut := ⟨nd2, nd2, nd2, nd2, none⟩

/-- A `[5, 1]`-shaped sample: its time series has 5 entries, not 24. -/
def nd5 : NDArray := ⟨[5, 1], fun idx => (idx.sum : ℚ)⟩

/-- A model output whose time series mismatch the 24-hour axis. -/
def mOutBad : ModelOut := ⟨nd5, nd5, nd5, nd5, none⟩

/-- Sample arguments selecting the single-location branch. -/
def argsS : RunnerArgs := ⟨false, 12, false, false, ["foF2"], 4⟩

set_option maxRecDepth 40000 in
/-- C2 counterexample: an ordinary model failure on January 2nd in the
Year Daily Generator's EDP path leaves the series one entry longer
than the dates (the overflow of C8), and the post-loop
`ax2.plot(dates, nmf2_values)` — outside any `try` — then raises a
shape-mismatch `ValueError` that propagates out of `main`: the script
does not return normally. -/
theorem year_daily_uncaught_plot_mismatch :
    yearDailyMain 2021 true (fun _ => 100) (fun _ => .error "m")
        (fun d => if d = 0 then .ok ndSc else .error "model")
      = .error "x and y must have same first dimension" ∧
    (yearDailyRun 2021 true (fun _ => 100) (fun _ => .error "m")
        (fun d => if d = 0 then .ok ndSc else .error "model")).nmf2.length
      ≠ daysInYear 2021 :=
  ⟨rfl, by decide⟩

/-- C2 (amended): exceptions raised inside the per-stage `try` blocks
— the runner's model call, global extraction/reshape, vTEC and profile
stages, and the per-month bodies of both year generators — are caught
there, each stage runs its model call(s) exactly once with no retry,
and `pyiri_year_plot.py` always returns normally.  But two plotting
stages run outside any `try`: the runner's single-location stage
propagates a `ValueError` out of `main` when the extracted time series
do not match the 24-hour axis, and the Year Daily Generator's
post-loop plot propagates one whenever the accumulated series do not
hold exactly one entry per date of the year. -/
theorem exception_handling_boundaries (a : RunnerArgs)
    (mcall : Except String ModelOut) (m : ModelOut) (year : Nat)
    (f fp : Nat → ℚ) (oM oD oP : Nat → Except String NDArray) :
    (a.globalMap = true →
      exceptOk (runnerMain a mcall) = true
        ∧ reportCalls (runnerMain a mcall) = 1) ∧
    (a.globalMap = false → tsLengthsOk m = true →
      runnerMain a (.ok m) = .ok ⟨1, "timeseries" ::
        (if a.profiles && m.edp.isSome then ["profiles"] else []), []⟩) ∧
    (a.globalMap = false → tsLengthsOk m = false →
      runnerMain a (.ok m)
        = .error "x and y must have same first dimension") ∧
    (yearPlotMain year oP fp = .ok (yearPlotRun year oP fp)
      ∧ (yearPlotRun year oP fp).calls
          = (List.range 12).map (fun k => (k + 1, true))) ∧
    (yearDailyMain year false f oM oD
        = .ok (yearDailyRun year false f oM oD)
      ∧ (yearDailyRun year false f oM oD).calls
          = (List.range 12).map (fun k => (k + 1, true))) ∧
    ((yearDailyRun year true f oM oD).nmf2.length = daysInYear year →
      yearDailyMain year true f oM oD
        = .ok (yearDailyRun year true f oM oD)) ∧
    ((yearDailyRun year true f oM oD).nmf2.length ≠ daysInYear year →
      yearDailyMain year true f oM oD
        = .error "x and y must have same first dimension") := by
  refine ⟨?_, ?_, ?_, ⟨?_, ?_⟩, ⟨?_, ?_⟩, ?_, ?_⟩
  · intro hg
    match mcall with
    | .error e => exact ⟨rfl, rfl⟩
    | .ok m' =>
      cases he : extractGlobalData a.hour m'.fo m'.hm m'.nm with
      | none =>
        constructor <;> simp [runnerMain, hg, he, exceptOk, reportCalls]
      | some x =>
        by_cases hr : reshapeOk m' a.gridSize = true <;>
          constructor <;>
            simp [runnerMain, hg, he, hr, exceptOk, reportCalls]
  · intro hg ht
    simp [runnerMain, hg, ht]
  · intro hg ht
    simp [runnerMain, hg, ht]
  · have h := yp_foldl_lengths year oP fp ((List.range 12).map (· + 1)) ypInit
    simp only [ypInit, List.length_nil, Nat.zero_add] at h
    have hc : (yearPlotRun year oP fp).f107.length
          = (yearPlotRun year oP fp).dates.length
        ∧ (yearPlotRun year oP fp).nmf2.length
          = (yearPlotRun year oP fp).dates.length
        ∧ (yearPlotRun year oP fp).mmin.length
          = (yearPlotRun year oP fp).dates.length
        ∧ (yearPlotRun year oP fp).mmax.length
          = (yearPlotRun year oP fp).dates.length := by
      rw [yearPlotRun]
      exact ⟨h.2.1.trans h.1.symm, h.2.2.1.trans h.1.symm,
        h.2.2.2.1.trans h.1.symm, h.2.2.2.2.trans h.1.symm⟩
    unfold yearPlotMain
    rw [if_pos hc]
  · rw [yearPlotRun, yearPlot_foldl_calls]
    simp [ypInit, List.map_map]
  · have h := yd_foldl_lengths year f oM oD ((List.range 12).map (· + 1))
      ⟨[], [], [], []⟩
    rw [sum_daysInMonth] at h
    have hc : (yearDailyRun year false f oM oD).nmf2.length
        = daysInYear year := by
      rw [yearDailyRun]
      simpa using h.1
    unfold yearDailyMain
    rw [if_pos hc]
  · rw [yearDailyRun, yearDaily_foldl_calls]
    simp [List.map_map]
  · intro h
    unfold yearDailyMain
    rw [if_pos h]
  · intro h
    unfold yearDailyMain
    rw [if_neg h]

/-- Concrete instance of `exception_handling_boundaries`: in the
single-location branch, matching time series plot normally, while
5-entry series against the 24-hour axis make `main` propagate. -/
theorem exception_handling_boundaries_witness :
    runnerMain argsS (.ok mOut2) = .ok ⟨1, ["timeseries"], []⟩ ∧
    runnerMain argsS (.ok mOutBad)
      = .error "x and y must have same first dimension" :=
  ⟨(exception_handling_boundaries argsS (.ok mOut2) mOut2 2021
      (fun _ => 100) (fun _ => 100) (fun _ => .error "m")
      (fun _ => .error "m") (fun _ => .error "m")).2.1 rfl rfl,
    (exception_handling_boundaries argsS (.ok mOutBad) mOutBad 2021
      (fun _ => 100) (fun _ => 100) (fun _ => .error "m")
      (fun _ => .error "m") (fun _ => .error "m")).2.2.1 rfl rfl⟩
